import Mathlib

/-!
# Verification of the gluonpilot sensor front end

A shallow embedding of `Firmware/rtos_pilot/sensors.c`: the fixed-period
acquisition task `sensors_task`, the pure scaling function
`scale_raw_sensor_data`, and the GPS task `sensors_gps_task`.

Modelling conventions:
- C `float`/`double` values are modelled as exact rationals (`ℚ`);
- raw ADC samples and other integers are `ℤ`, counters are `ℕ`;
- the external collaborators (`scp1000_pressure_to_height`,
  `bmp085_convert_temp`, `bmp085_convert_pressure`) are parameters of the
  model (`Ext`), since their code lives outside this component;
- per-tick hardware inputs (ADC channels, SCP1000 data-ready line, SPI
  semaphore availability, sensor readings, the global simulation flag) are
  an environment record (`TickEnv`), one per tick;
- each tick additionally returns the ordered list of hardware/driver
  actions it performed (`Ev`), so that ordering claims (what happens
  before a `vTaskDelete`, which barometric conversion was requested) are
  expressible.
-/

namespace Sensors

/-- Status of the GPS fix, from `gps/gps.h` (EMPTY is the zero value). -/
inductive GpsStatus where
  | EMPTY
  | VOID
  | ACTIVE
deriving DecidableEq

/-- The `gps` sub-struct of `struct SensorData`: the fields this component
reads or writes (`status`, `latitude_rad`, `longitude_rad`, `speed_ms`,
`satellites_in_view`). -/
structure GpsData where
  status : GpsStatus
  latitude_rad : ℚ
  longitude_rad : ℚ
  speed_ms : ℚ
  satellites_in_view : ℕ
deriving DecidableEq

/-- The shared `sensor_data` global (`struct SensorData`), restricted to the
fields touched by `sensors.c`. -/
structure SensorData where
  acc_x_raw : ℤ
  acc_y_raw : ℤ
  acc_z_raw : ℤ
  gyro_x_raw : ℤ
  gyro_y_raw : ℤ
  gyro_z_raw : ℤ
  idg500_vref : ℤ
  acc_x : ℚ
  acc_y : ℚ
  acc_z : ℚ
  p : ℚ
  q : ℚ
  r : ℚ
  pressure : ℚ
  temperature : ℚ
  temperature_10 : ℤ
  pressure_height : ℚ
  vertical_speed : ℚ
  battery_voltage_10 : ℚ
  magnetometer_raw : ℤ
  gps : GpsData
deriving DecidableEq

/-- Calibration configuration and build/hardware profile: the parts of
`struct Configuration`, the `HARDWARE_VERSION` variable and the compile-time
switches that `sensors.c` consults. `V01J = 1`, `V01N = 2`, `V01O = 3`
(`configuration.h`). `quad` is `ENABLE_QUADROCOPTER`; `mag_enabled` is
`ENABLE_QUADROCOPTER || F1E_STEERING`. -/
structure Config where
  acc_x_neutral : ℤ
  acc_y_neutral : ℤ
  acc_z_neutral : ℤ
  gyro_x_neutral : ℚ
  gyro_y_neutral : ℚ
  gyro_z_neutral : ℚ
  cruising_speed_ms : ℚ
  hardware_version : ℕ
  quad : Bool
  mag_enabled : Bool

/-- External collaborators of the barometric path,.whose code is outside this
component: `scp1000_pressure_to_height` and the two `bmp085_convert_*`
conversions. -/
structure Ext where
  pressure_to_height : ℚ → ℚ → ℚ
  bmp085_convert_temp : ℤ → ℤ
  bmp085_convert_pressure : ℤ → ℤ

/-- Per-tick hardware inputs of `sensors_task`. -/
structure TickEnv where
  adc : ℕ → ℤ
  scp_dataready : Bool
  spi_token : Bool
  scp_pressure : ℚ
  scp_temperature : ℚ
  bmp_raw_temp : ℤ
  bmp_raw_pressure : ℤ
  mag : ℤ
  simulation_mode : Bool

/-- Hardware/driver actions performed during one tick, in program order. -/
inductive Ev where
  | adcRead
  | adcStart
  | taskDelete
  | battery
  | bmpTempPhase
  | bmpPressurePhase
  | scpRead
  | magRead
  | ahrs
deriving DecidableEq

/-- Task-local state of `sensors_task`: the shared `sensor_data` plus the
locals `temperature_10` (initialised to 200, written but never read),
`last_height`, `dt_since_last_height`, `low_update_counter`, and a flag
recording that `vTaskDelete` has run. -/
structure TaskState where
  sd : SensorData
  temperature_10_local : ℤ
  last_height : ℚ
  dt_since_last_height : ℚ
  low_update_counter : ℕ
  terminated : Bool
deriving DecidableEq

/-- Initial value of `sensor_data` (a C global, zero-initialised; the zero
value of the status enum is `EMPTY`). -/
def initGpsData : GpsData :=
  { status := GpsStatus.EMPTY, latitude_rad := 0, longitude_rad := 0,
    speed_ms := 0, satellites_in_view := 0 }

/-- Zero-initialised `sensor_data`. -/
def initSensorData : SensorData :=
  { acc_x_raw := 0, acc_y_raw := 0, acc_z_raw := 0,
    gyro_x_raw := 0, gyro_y_raw := 0, gyro_z_raw := 0, idg500_vref := 0,
    acc_x := 0, acc_y := 0, acc_z := 0, p := 0, q := 0, r := 0,
    pressure := 0, temperature := 0, temperature_10 := 0,
    pressure_height := 0, vertical_speed := 0, battery_voltage_10 := 0,
    magnetometer_raw := 0, gps := initGpsData }

/-- State of `sensors_task` at entry of its `for(;;)` loop (the locals as
declared at lines 70-73 of `sensors.c`). -/
def initTaskState : TaskState :=
  { sd := initSensorData, temperature_10_local := 200, last_height := 0,
    dt_since_last_height := 0, low_update_counter := 0, terminated := false }

/-- ADC counts per g for the accelerometer, `acc_value_g` in `sensors.c`. -/
def acc_value_g : ℚ := 6600

/-- The `INVERT_X` build constant (set to -1 in the source). -/
def invert_x : ℚ := -1

/-- Value of the `scale_z_gyro` global after the one-shot initialisation at
lines 99-102: IDZ-500 on `HARDWARE_VERSION >= V01N`, ADXRS-613 otherwise. -/
def scale_z_gyro (cfg : Config) : ℚ :=
  if 2 ≤ cfg.hardware_version then
    (-(2538315 : ℚ) / 100000000 * ((314159 : ℚ) / 100000) / 180) * 2
  else
    ((62286 : ℚ) / 10000000) * ((314159 : ℚ) / 100000) / 180

/-- The `read_raw_sensor_data` function: copy the seven ADC channels of the
previous conversion into the raw fields. -/
def read_raw_sensor_data (adc : ℕ → ℤ) (sd : SensorData) : SensorData :=
  { sd with
    acc_x_raw := adc 6, acc_z_raw := adc 1, acc_y_raw := adc 0,
    gyro_x_raw := adc 4, gyro_y_raw := adc 7, gyro_z_raw := adc 5,
    idg500_vref := adc 3 }

/-- The `scale_raw_sensor_data` function: raw counts to g units and rad/s.
`zscale` is the value of the `scale_z_gyro` global. -/
def scale_raw_sensor_data (cfg : Config) (zscale : ℚ) (sd : SensorData) :
    SensorData :=
  { sd with
    acc_x := ((sd.acc_x_raw : ℚ) - (cfg.acc_x_neutral : ℚ)) /
      (-acc_value_g * invert_x)
    acc_y := ((sd.acc_y_raw : ℚ) - (cfg.acc_y_neutral : ℚ)) /
      (-acc_value_g * invert_x)
    acc_z := ((sd.acc_z_raw : ℚ) - (cfg.acc_z_neutral : ℚ)) / (-acc_value_g)
    p := ((sd.gyro_x_raw : ℚ) - cfg.gyro_x_neutral) *
      (-(2518315 : ℚ) / 100000000 * ((314159 : ℚ) / 100000) / 180 * invert_x)
    q := ((sd.gyro_y_raw : ℚ) - cfg.gyro_y_neutral) *
      (-(2538315 : ℚ) / 100000000 * ((314159 : ℚ) / 100000) / 180 * invert_x)
    r := ((sd.gyro_z_raw : ℚ) - cfg.gyro_z_neutral) * zscale }

/-- Truncation toward zero, the C `(int)` cast of a float. -/
def truncQ (x : ℚ) : ℤ := x.num / (x.den : ℤ)

/-- Counter update at the top of the loop: increment by 1 (250 Hz quad
build) or by 5 (50 Hz build), then reset to 0 once above 65000. -/
def next_counter (cfg : Config) (s : TaskState) : ℕ :=
  let c := s.low_update_counter + (if cfg.quad then 1 else 5)
  if 65000 < c then 0 else c

/-- Time added to `dt_since_last_height` each tick: 0.004 s (quad) or
0.02 s. -/
def tick_dt (cfg : Config) : ℚ := if cfg.quad then 1 / 250 else 1 / 50

/-- Lines 138-154: the BMP085 low-rate branch on `HARDWARE_VERSION >= V01O`,
alternating on the parity of `low_update_counter / 50` between reading the
pending temperature (and starting a pressure conversion) and reading the
pending pressure (computing the height, and starting a temperature
conversion). -/
def bmp_low_rate_update (ext : Ext) (env : TickEnv) (counter : ℕ)
    (sd : SensorData) : SensorData × List Ev :=
  if counter / 50 % 2 = 0 then
    let t10 := ext.bmp085_convert_temp env.bmp_raw_temp
    ({ sd with temperature_10 := t10, temperature := (t10 : ℚ) / 10 },
     [Ev.bmpTempPhase])
  else
    let pr := ext.bmp085_convert_pressure env.bmp_raw_pressure
    let h := ext.pressure_to_height (pr : ℚ) sd.temperature
    ({ sd with pressure := (pr : ℚ), pressure_height := h },
     [Ev.bmpPressurePhase])

/-- Lines 160-179: body of the legacy (SCP1000) branch, entered when a new
sample is ready. A zero-timeout `xSemaphoreTake` guards only the SPI reads
of pressure and temperature; the rest of the body runs either way: height
is recomputed from the stored pressure/temperature, gated to
(-30000, 30000), the vertical speed is smoothed and clamped, and the
returned local `temperature_10` is refreshed. The caller also updates
`last_height` and zeroes the time accumulator. -/
def legacy_baro_update (ext : Ext) (env : TickEnv) (dt : ℚ)
    (last_height : ℚ) (sd : SensorData) : SensorData × ℤ × List Ev :=
  let sd1 :=
    if env.spi_token then
      { sd with pressure := env.scp_pressure,
                temperature := env.scp_temperature }
    else sd
  let evs := if env.spi_token then [Ev.scpRead] else ([] : List Ev)
  let t10 := truncQ sd1.temperature * 10
  let height := ext.pressure_to_height sd1.pressure sd1.temperature
  let sd2 :=
    if -30000 < height ∧ height < 30000 then
      { sd1 with pressure_height := height }
    else sd1
  let v := sd2.vertical_speed * (4 / 5) +
    (sd2.pressure_height - last_height) / dt * (1 / 5)
  let v := if max 5 sd2.gps.speed_ms < |v| then 0 else v
  ({ sd2 with vertical_speed := v }, t10, evs)

/-- Lines 184-189: magnetometer sampling every 25th count, on builds where
a magnetometer is present. -/
def mag_update (cfg : Config) (env : TickEnv) (counter : ℕ)
    (sd : SensorData) : SensorData × List Ev :=
  if cfg.mag_enabled ∧ counter % 25 = 0 then
    ({ sd with magnetometer_raw := env.mag }, [Ev.magRead])
  else (sd, ([] : List Ev))

/-- One iteration of the `for(;;)` loop of `sensors_task` (lines 111-196):
counter and time-accumulator update, raw read of the previous conversion,
ADC restart, scaling, then either the every-50th-count low-rate branch
(simulation-mode self-delete check, battery voltage, BMP085 phase on the
newer hardware) or the legacy SCP1000 branch, then the magnetometer
sub-rate and the AHRS filter call. A deleted task does nothing. -/
def sensors_tick (cfg : Config) (ext : Ext) (env : TickEnv) (s : TaskState) :
    TaskState × List Ev :=
  if s.terminated then (s, [])
  else
    let counter := next_counter cfg s
    let dt := s.dt_since_last_height + tick_dt cfg
    let sd := scale_raw_sensor_data cfg (scale_z_gyro cfg)
      (read_raw_sensor_data env.adc s.sd)
    if counter % 50 = 0 then
      if env.simulation_mode then
        ({ s with sd := sd, low_update_counter := counter,
                  dt_since_last_height := dt, terminated := true },
         [Ev.adcRead, Ev.adcStart, Ev.taskDelete])
      else
        let sd0 := { sd with
          battery_voltage_10 := (env.adc 8 : ℚ) * (33 / 10 * (51 / 10) / 6550) }
        let bres :=
          if 3 ≤ cfg.hardware_version then bmp_low_rate_update ext env counter sd0
          else (sd0, ([] : List Ev))
        let mres := mag_update cfg env counter bres.1
        ({ s with sd := mres.1, low_update_counter := counter,
                  dt_since_last_height := dt },
         [Ev.adcRead, Ev.adcStart, Ev.battery] ++ bres.2 ++ mres.2 ++ [Ev.ahrs])
    else
      if cfg.hardware_version < 3 ∧ env.scp_dataready then
        let lres := legacy_baro_update ext env dt s.last_height sd
        let mres := mag_update cfg env counter lres.1
        ({ s with sd := mres.1, temperature_10_local := lres.2.1,
                  last_height := lres.1.pressure_height,
                  dt_since_last_height := 0, low_update_counter := counter },
         [Ev.adcRead, Ev.adcStart] ++ lres.2.2 ++ mres.2 ++ [Ev.ahrs])
      else
        let mres := mag_update cfg env counter sd
        ({ s with sd := mres.1, low_update_counter := counter,
                  dt_since_last_height := dt },
         [Ev.adcRead, Ev.adcStart] ++ mres.2 ++ [Ev.ahrs])

/-- Iterated ticks of `sensors_task`, with one environment per tick. -/
def runSensors (cfg : Config) (ext : Ext) (envs : ℕ → TickEnv) :
    ℕ → TaskState → TaskState
  | 0, s => s
  | n + 1, s => (sensors_tick cfg ext (envs n) (runSensors cfg ext envs n s)).1

/-- Per-cycle inputs of `sensors_gps_task`: whether `xGpsSemaphore` was
signalled within the 205 ms timeout, the fix produced by
`gps_update_info` from the parsed sentence, and the global airborne flag. -/
structure GpsEnv where
  signal : Bool
  parsed : GpsData
  airborne : Bool

/-- Result of one cycle of `sensors_gps_task`: the shared state, the local
cycle counter `i`, the LED2 indicator state, and whether the
`gluonscript_do` post-processing hook ran this cycle. -/
structure GpsCycleResult where
  sd : SensorData
  i : ℕ
  led : Bool
  hook : Bool
deriving DecidableEq

/-- One iteration of the `for(;;)` loop of `sensors_gps_task`
(lines 273-303): semaphore wait with 205 ms timeout (signal branch updates
the fix from the parsed sentence and increments `i`; timeout branch sets
status EMPTY, clears satellites, resets `i` and switches LED2 off), then
the low-satellite airborne fallback speed, the every-other-cycle
`gluonscript_do` hook, and the LED2 policy. -/
def gps_cycle (cfg : Config) (env : GpsEnv) (sd : SensorData) (i0 : ℕ)
    (led : Bool) : GpsCycleResult :=
  let sd1 :=
    if env.signal then { sd with gps := env.parsed }
    else
      { sd with gps := { sd.gps with status := GpsStatus.EMPTY,
                                     satellites_in_view := 0 } }
  let i := if env.signal then i0 + 1 else 0
  let led1 := if env.signal then led else false
  let sd2 :=
    if sd1.gps.satellites_in_view < 4 ∧ env.airborne then
      { sd1 with gps := { sd1.gps with speed_ms := cfg.cruising_speed_ms } }
    else sd1
  let led2 :=
    if (i % 6 = 0 ∨ (i + 1) % 6 = 0 ∨ (i + 2) % 6 = 0) ∧
        sd2.gps.status = GpsStatus.ACTIVE ∧ 5 < sd2.gps.satellites_in_view then
      false
    else if sd2.gps.status ≠ GpsStatus.EMPTY then true
    else led1
  { sd := sd2, i := i, led := led2, hook := i % 2 = 0 }

/-! ## Derived notions used by the statements -/

/-- Result of the plausibility gate of the legacy path (lines 170-171):
the new height when it lies strictly inside (-30000, 30000), the previous
stored height otherwise. -/
def gatedHeight (prev h : ℚ) : ℚ :=
  if -30000 < h ∧ h < 30000 then h else prev

/-- Exponential smoothing of the vertical speed with the noise clamp
(lines 172-175): `v = 0.8·v_prev + 0.2·(ph − last_height)/dt`, forced to 0
when `|v| > max(5, gps speed)`. -/
def smoothedVSpeed (vprev ph lh dt speed : ℚ) : ℚ :=
  let v0 := vprev * (4 / 5) + (ph - lh) / dt * (1 / 5)
  if max 5 speed < |v0| then 0 else v0

/-- Consistency of the stored `pressure_height` with the stored pressure and
temperature: if the height the conversion collaborator computes from the
stored pressure/temperature passes the plausibility gate, then it is what is
stored. This holds after every execution of the legacy barometric branch
(see `legacy_baro_update_gateConsistent`) and is preserved by all other
ticks of a legacy-generation device. -/
def gateConsistent (ext : Ext) (sd : SensorData) : Prop :=
  (-30000 < ext.pressure_to_height sd.pressure sd.temperature ∧
      ext.pressure_to_height sd.pressure sd.temperature < 30000) →
    sd.pressure_height = ext.pressure_to_height sd.pressure sd.temperature

/-- The shared state with its GPS subtree replaced by the initial one: two
states with the same `stripGps` image differ at most in the GPS subtree. -/
def stripGps (sd : SensorData) : SensorData := { sd with gps := initGpsData }

/-- Barometric conversion request issued during one tick, recovered from the
tick's action list: `some true` for a temperature request, `some false` for
a pressure request, `none` when no request was issued. -/
def baroReqOf (l : List Ev) : Option Bool :=
  if Ev.bmpTempPhase ∈ l then some true
  else if Ev.bmpPressurePhase ∈ l then some false
  else none

/-! ## Concrete fixtures for witnesses and counterexamples -/

/-- Concrete externals: height conversion returns the pressure argument,
and the BMP085 conversions are the identity. -/
def extId : Ext :=
  { pressure_to_height := fun p _ => p, bmp085_convert_temp := fun t => t,
    bmp085_convert_pressure := fun p => p }

/-- Legacy-generation quadrocopter build with zero neutrals. -/
def cfgLegacyQuad : Config :=
  { acc_x_neutral := 0, acc_y_neutral := 0, acc_z_neutral := 0,
    gyro_x_neutral := 0, gyro_y_neutral := 0, gyro_z_neutral := 0,
    cruising_speed_ms := 0, hardware_version := 1, quad := true,
    mag_enabled := false }

/-- Newer-generation (V01O) quadrocopter build. -/
def cfgNewQuad : Config := { cfgLegacyQuad with hardware_version := 3 }

/-- Baseline tick environment: all channels zero, no barometric sample
ready, token available, simulation off. -/
def envQuiet : TickEnv :=
  { adc := fun _ => 0, scp_dataready := false, spi_token := true,
    scp_pressure := 0, scp_temperature := 0, bmp_raw_temp := 0,
    bmp_raw_pressure := 0, mag := 0, simulation_mode := false }

/-- Baseline environment with the global simulation flag raised. -/
def envSim : TickEnv := { envQuiet with simulation_mode := true }

/-- Environment with a fresh legacy sample (pressure 100, temperature 20)
and the SPI token available. -/
def envScp100 : TickEnv :=
  { envQuiet with scp_dataready := true, scp_pressure := 100,
                  scp_temperature := 20 }

/-- Environment with a fresh legacy sample but the SPI token unavailable. -/
def envScpBusy : TickEnv := { envScp100 with spi_token := false }

/-- Environment with a fresh legacy sample of pressure 100.04. -/
def envScp10004 : TickEnv := { envScp100 with scp_pressure := 2501 / 25 }

/-- Tick environments of the three-tick run refuting the claimed Δt
accounting: successful update, contention-skipped tick, successful
update. -/
def c4envs : ℕ → TickEnv
  | 0 => envScp100
  | 1 => envScpBusy
  | _ => envScp10004

/-- Three-tick legacy run: success at tick 1, bus contention at tick 2,
success at tick 3. -/
def c4run (n : ℕ) : TaskState :=
  runSensors cfgLegacyQuad extId c4envs n initTaskState

/-- Run of the newer-generation quadrocopter build under the baseline
environment, for the tick-counter/phase analysis. -/
def c8run (n : ℕ) : TaskState :=
  runSensors cfgNewQuad extId (fun _ => envQuiet) n initTaskState

/-- Barometric request issued on tick `t` (ticks are numbered from 1) of
the `c8run` run. -/
def c8req (t : ℕ) : Option Bool :=
  baroReqOf (sensors_tick cfgNewQuad extId envQuiet (c8run (t - 1))).2

/-- Legacy-device state whose stored pressure/temperature/height are those
of a completed successful update (pressure 100, temperature 20, height
100 under `extId`). -/
def stSettled : TaskState :=
  { initTaskState with
    sd := { initSensorData with pressure := 100, temperature := 20,
                                pressure_height := 100 },
    last_height := 100 }

/-- State whose stored `pressure_height` is 7, used for the height-gate
examples. -/
def stH7 : TaskState :=
  { initTaskState with
    sd := { initSensorData with pressure_height := 7 } }

/-- State with a stored GPS speed of 2 m/s and `last_height` 0, used for
the vertical-speed clamp examples. -/
def stSpeed2 : TaskState :=
  { initTaskState with
    sd := { initSensorData with
            gps := { initGpsData with speed_ms := 2 } } }

/-- Environment producing a raw smoothed vertical speed of exactly 8 from
`stSpeed2` (height 4/25 over one 0.004 s quad tick). -/
def envV8 : TickEnv := { envScp100 with scp_pressure := 4 / 25 }

/-- Environment producing a raw smoothed vertical speed of exactly 3 from
`stSpeed2` (height 3/50 over one 0.004 s quad tick). -/
def envV3 : TickEnv := { envScp100 with scp_pressure := 3 / 50 }

/-- Environment whose legacy sample converts to a height of exactly 31000. -/
def envH31000 : TickEnv := { envScp100 with scp_pressure := 31000 }

/-- Environment whose legacy sample converts to a height of exactly 100. -/
def envH100 : TickEnv := envScp100

/-- Environment whose legacy sample converts to a height of exactly 30000,
the boundary of the plausibility range. -/
def envH30000 : TickEnv := { envScp100 with scp_pressure := 30000 }

/-- State of `sensors_task` whose counter reaches 50 on the next tick of a
quadrocopter build. -/
def st49 : TaskState := { initTaskState with low_update_counter := 49 }

/-- Configuration for the GPS task fixtures: cruising speed 12 m/s. -/
def cfgGps : Config := { cfgLegacyQuad with cruising_speed_ms := 12 }

/-- A parsed active fix with 7 satellites in view. -/
def fixActive7 : GpsData :=
  { status := GpsStatus.ACTIVE, latitude_rad := 1 / 2, longitude_rad := 1 / 4,
    speed_ms := 9, satellites_in_view := 7 }

/-- GPS cycle input: fix-ready signal received, vehicle not airborne. -/
def genvSignal : GpsEnv :=
  { signal := true, parsed := fixActive7, airborne := false }

/-- GPS cycle input: no fix-ready signal within the timeout. -/
def genvTimeout : GpsEnv :=
  { signal := false, parsed := fixActive7, airborne := false }

/-- Shared state in which the GPS subtree holds an active fix. -/
def sdActive : SensorData := { initSensorData with gps := fixActive7 }

/-- Concrete calibration configuration for the scaling witness (V01O
hardware, nonzero neutrals). -/
def cfgScale : Config :=
  { acc_x_neutral := 32000, acc_y_neutral := 32100, acc_z_neutral := 32200,
    gyro_x_neutral := 31000, gyro_y_neutral := 31100, gyro_z_neutral := 31200,
    cruising_speed_ms := 0, hardware_version := 3, quad := false,
    mag_enabled := false }

/-- Concrete raw sample values for the scaling witness. -/
def sdRaw : SensorData :=
  { initSensorData with
    acc_x_raw := 33000, acc_y_raw := 31000, acc_z_raw := 32200,
    gyro_x_raw := 31500, gyro_y_raw := 30000, gyro_z_raw := 31200 }

/-- The raw samples of `sdRaw` with different derived fields, witnessing
that the scaled outputs depend on the raw fields only. -/
def sdRaw2 : SensorData :=
  { sdRaw with acc_x := 55, p := 66, pressure := 77, vertical_speed := 88 }

end Sensors

/-! ## Theorems -/

namespace Sensors

lemma read_raw_pressure (adc : ℕ → ℤ) (sd : SensorData) :
    (read_raw_sensor_data adc sd).pressure = sd.pressure := rfl

lemma read_raw_temperature (adc : ℕ → ℤ) (sd : SensorData) :
    (read_raw_sensor_data adc sd).temperature = sd.temperature := rfl

lemma read_raw_pressure_height (adc : ℕ → ℤ) (sd : SensorData) :
    (read_raw_sensor_data adc sd).pressure_height = sd.pressure_height := rfl

lemma read_raw_vertical_speed (adc : ℕ → ℤ) (sd : SensorData) :
    (read_raw_sensor_data adc sd).vertical_speed = sd.vertical_speed := rfl

lemma read_raw_gps (adc : ℕ → ℤ) (sd : SensorData) :
    (read_raw_sensor_data adc sd).gps = sd.gps := rfl

lemma scale_raw_pressure (cfg : Config) (z : ℚ) (sd : SensorData) :
    (scale_raw_sensor_data cfg z sd).pressure = sd.pressure := rfl

lemma scale_raw_temperature (cfg : Config) (z : ℚ) (sd : SensorData) :
    (scale_raw_sensor_data cfg z sd).temperature = sd.temperature := rfl

lemma scale_raw_pressure_height (cfg : Config) (z : ℚ) (sd : SensorData) :
    (scale_raw_sensor_data cfg z sd).pressure_height = sd.pressure_height := rfl

lemma scale_raw_vertical_speed (cfg : Config) (z : ℚ) (sd : SensorData) :
    (scale_raw_sensor_data cfg z sd).vertical_speed = sd.vertical_speed := rfl

lemma scale_raw_gps (cfg : Config) (z : ℚ) (sd : SensorData) :
    (scale_raw_sensor_data cfg z sd).gps = sd.gps := rfl

lemma mag_update_pressure (cfg : Config) (env : TickEnv) (c : ℕ)
    (sd : SensorData) : (mag_update cfg env c sd).1.pressure = sd.pressure := by
  unfold mag_update; split <;> rfl

lemma mag_update_temperature (cfg : Config) (env : TickEnv) (c : ℕ)
    (sd : SensorData) :
    (mag_update cfg env c sd).1.temperature = sd.temperature := by
  unfold mag_update; split <;> rfl

lemma mag_update_pressure_height (cfg : Config) (env : TickEnv) (c : ℕ)
    (sd : SensorData) :
    (mag_update cfg env c sd).1.pressure_height = sd.pressure_height := by
  unfold mag_update; split <;> rfl

lemma mag_update_vertical_speed (cfg : Config) (env : TickEnv) (c : ℕ)
    (sd : SensorData) :
    (mag_update cfg env c sd).1.vertical_speed = sd.vertical_speed := by
  unfold mag_update; split <;> rfl

lemma mag_update_gps (cfg : Config) (env : TickEnv) (c : ℕ)
    (sd : SensorData) : (mag_update cfg env c sd).1.gps = sd.gps := by
  unfold mag_update; split <;> rfl

lemma bmp_low_rate_gps (ext : Ext) (env : TickEnv) (c : ℕ)
    (sd : SensorData) : (bmp_low_rate_update ext env c sd).1.gps = sd.gps := by
  unfold bmp_low_rate_update; split <;> rfl

lemma legacy_baro_gps (ext : Ext) (env : TickEnv) (dt lh : ℚ)
    (sd : SensorData) : (legacy_baro_update ext env dt lh sd).1.gps = sd.gps := by
  simp only [legacy_baro_update]
  split <;> split <;> rfl

/-- Claim C7: the scaled outputs have the form σ·(r−c)/s with a per-axis
sign σ ∈ {1,−1} and a nonzero scale constant s; they depend only on the
raw samples and the calibration configuration (identical inputs give
identical outputs); and the Z-axis gyro scale constant is chosen from the
detected hardware generation (IDZ-500 value on V01N and later, ADXRS-613
value before). -/
theorem C7_scaling_pure (cfg : Config) (sd : SensorData) :
    (∃ sg sc : ℚ, (sg = 1 ∨ sg = -1) ∧ sc ≠ 0 ∧
      (scale_raw_sensor_data cfg (scale_z_gyro cfg) sd).acc_x =
        sg * ((sd.acc_x_raw : ℚ) - (cfg.acc_x_neutral : ℚ)) / sc) ∧
    (∃ sg sc : ℚ, (sg = 1 ∨ sg = -1) ∧ sc ≠ 0 ∧
      (scale_raw_sensor_data cfg (scale_z_gyro cfg) sd).acc_y =
        sg * ((sd.acc_y_raw : ℚ) - (cfg.acc_y_neutral : ℚ)) / sc) ∧
    (∃ sg sc : ℚ, (sg = 1 ∨ sg = -1) ∧ sc ≠ 0 ∧
      (scale_raw_sensor_data cfg (scale_z_gyro cfg) sd).acc_z =
        sg * ((sd.acc_z_raw : ℚ) - (cfg.acc_z_neutral : ℚ)) / sc) ∧
    (∃ sg sc : ℚ, (sg = 1 ∨ sg = -1) ∧ sc ≠ 0 ∧
      (scale_raw_sensor_data cfg (scale_z_gyro cfg) sd).p =
        sg * ((sd.gyro_x_raw : ℚ) - cfg.gyro_x_neutral) / sc) ∧
    (∃ sg sc : ℚ, (sg = 1 ∨ sg = -1) ∧ sc ≠ 0 ∧
      (scale_raw_sensor_data cfg (scale_z_gyro cfg) sd).q =
        sg * ((sd.gyro_y_raw : ℚ) - cfg.gyro_y_neutral) / sc) ∧
    (∃ sg sc : ℚ, (sg = 1 ∨ sg = -1) ∧ sc ≠ 0 ∧
      (scale_raw_sensor_data cfg (scale_z_gyro cfg) sd).r =
        sg * ((sd.gyro_z_raw : ℚ) - cfg.gyro_z_neutral) / sc) ∧
    (∀ sd₂ : SensorData,
      sd.acc_x_raw = sd₂.acc_x_raw → sd.acc_y_raw = sd₂.acc_y_raw →
      sd.acc_z_raw = sd₂.acc_z_raw → sd.gyro_x_raw = sd₂.gyro_x_raw →
      sd.gyro_y_raw = sd₂.gyro_y_raw → sd.gyro_z_raw = sd₂.gyro_z_raw →
      (scale_raw_sensor_data cfg (scale_z_gyro cfg) sd).acc_x =
        (scale_raw_sensor_data cfg (scale_z_gyro cfg) sd₂).acc_x ∧
      (scale_raw_sensor_data cfg (scale_z_gyro cfg) sd).acc_y =
        (scale_raw_sensor_data cfg (scale_z_gyro cfg) sd₂).acc_y ∧
      (scale_raw_sensor_data cfg (scale_z_gyro cfg) sd).acc_z =
        (scale_raw_sensor_data cfg (scale_z_gyro cfg) sd₂).acc_z ∧
      (scale_raw_sensor_data cfg (scale_z_gyro cfg) sd).p =
        (scale_raw_sensor_data cfg (scale_z_gyro cfg) sd₂).p ∧
      (scale_raw_sensor_data cfg (scale_z_gyro cfg) sd).q =
        (scale_raw_sensor_data cfg (scale_z_gyro cfg) sd₂).q ∧
      (scale_raw_sensor_data cfg (scale_z_gyro cfg) sd).r =
        (scale_raw_sensor_data cfg (scale_z_gyro cfg) sd₂).r) ∧
    (2 ≤ cfg.hardware_version →
      scale_z_gyro cfg =
        (-(2538315 : ℚ) / 100000000 * ((314159 : ℚ) / 100000) / 180) * 2) ∧
    (cfg.hardware_version < 2 →
      scale_z_gyro cfg =
        ((62286 : ℚ) / 10000000) * ((314159 : ℚ) / 100000) / 180) := by
  refine ⟨⟨1, 6600, Or.inl rfl, by norm_num, ?_⟩,
          ⟨1, 6600, Or.inl rfl, by norm_num, ?_⟩,
          ⟨-1, 6600, Or.inr rfl, by norm_num, ?_⟩,
          ⟨1, ((2518315 : ℚ) / 100000000 * ((314159 : ℚ) / 100000) / 180)⁻¹,
            Or.inl rfl, inv_ne_zero (by norm_num), ?_⟩,
          ⟨1, ((2538315 : ℚ) / 100000000 * ((314159 : ℚ) / 100000) / 180)⁻¹,
            Or.inl rfl, inv_ne_zero (by norm_num), ?_⟩,
          ?_, ?_, ?_, ?_⟩
  · simp only [scale_raw_sensor_data, acc_value_g, invert_x]; ring
  · simp only [scale_raw_sensor_data, acc_value_g, invert_x]; ring
  · simp only [scale_raw_sensor_data, acc_value_g, invert_x]; ring
  · simp only [scale_raw_sensor_data, invert_x, div_eq_mul_inv, inv_inv, one_mul]
    ring
  · simp only [scale_raw_sensor_data, invert_x, div_eq_mul_inv, inv_inv, one_mul]
    ring
  · by_cases h2 : 2 ≤ cfg.hardware_version
    · refine ⟨-1, (((2538315 : ℚ) / 100000000 * ((314159 : ℚ) / 100000) / 180) * 2)⁻¹,
        Or.inr rfl, inv_ne_zero (by norm_num), ?_⟩
      simp only [scale_raw_sensor_data, scale_z_gyro, if_pos h2, div_eq_mul_inv,
        inv_inv]
      ring
    · refine ⟨1, (((62286 : ℚ) / 10000000) * ((314159 : ℚ) / 100000) / 180)⁻¹,
        Or.inl rfl, inv_ne_zero (by norm_num), ?_⟩
      simp only [scale_raw_sensor_data, scale_z_gyro, if_neg h2, div_eq_mul_inv,
        inv_inv]
      ring
  · intro sd₂ h1 h2 h3 h4 h5 h6
    simp [scale_raw_sensor_data, h1, h2, h3, h4, h5, h6]
  · intro h2; simp only [scale_z_gyro, if_pos h2]
  · intro h2; simp only [scale_z_gyro, if_neg (by omega : ¬ 2 ≤ cfg.hardware_version)]

/-- Witness for C7 at a concrete configuration and concrete raw samples:
the V01N-and-later Z-gyro constant is selected, and two states sharing raw
samples scale identically. -/
theorem C7_witness :
    scale_z_gyro cfgScale =
      (-(2538315 : ℚ) / 100000000 * ((314159 : ℚ) / 100000) / 180) * 2 ∧
    (scale_raw_sensor_data cfgScale (scale_z_gyro cfgScale) sdRaw).acc_x =
      (scale_raw_sensor_data cfgScale (scale_z_gyro cfgScale) sdRaw2).acc_x := by
  have h := C7_scaling_pure cfgScale sdRaw
  exact ⟨h.2.2.2.2.2.2.2.1 (by norm_num [cfgScale]),
         (h.2.2.2.2.2.2.1 sdRaw2 rfl rfl rfl rfl rfl rfl).1⟩

/-- Claim C9, amended: the post-processing hook runs on a cycle iff the
fix sequence counter is even after the cycle's waiting branch, i.e. on
every second successful cycle and additionally on every timeout cycle
(where the counter has just been reset to 0). -/
theorem C9_hook_parity (cfg : Config) (env : GpsEnv) (sd : SensorData)
    (i0 : ℕ) (led : Bool) :
    (gps_cycle cfg env sd i0 led).hook = true ↔
      (env.signal = true ∧ (i0 + 1) % 2 = 0) ∨ env.signal = false := by
  cases h : env.signal <;> simp [gps_cycle, h]

/-- Counterexample to claim C9 as stated: on a cycle that received no
fix-ready signal (a timeout cycle) the hook nevertheless runs, because the
counter is reset to 0 and 0 is even; so the hook does not run only on
successful cycles. -/
theorem C9_counterexample :
    genvTimeout.signal = false ∧
    (gps_cycle cfgGps genvTimeout sdActive 5 true).hook = true := by
  exact ⟨rfl, by simp [gps_cycle, genvTimeout]⟩

/-- Claim C6: on a timeout cycle the status becomes EMPTY, the
satellites-in-view count becomes 0, the fix sequence counter resets to 0
and the indicator is driven to the no-fix (off) state; on a successful
cycle the GPS subtree is replaced by the parsed fix (subject to the
low-satellite airborne fallback-speed substitution of §4.4) and the fix
sequence counter is incremented. -/
theorem C6_timeout_and_update (cfg : Config) (env : GpsEnv)
    (sd : SensorData) (i0 : ℕ) (led : Bool) :
    (env.signal = false →
      (gps_cycle cfg env sd i0 led).sd.gps.status = GpsStatus.EMPTY ∧
      (gps_cycle cfg env sd i0 led).sd.gps.satellites_in_view = 0 ∧
      (gps_cycle cfg env sd i0 led).i = 0 ∧
      (gps_cycle cfg env sd i0 led).led = false) ∧
    (env.signal = true →
      (gps_cycle cfg env sd i0 led).i = i0 + 1 ∧
      (gps_cycle cfg env sd i0 led).sd.gps =
        (if env.parsed.satellites_in_view < 4 ∧ env.airborne then
          { env.parsed with speed_ms := cfg.cruising_speed_ms }
        else env.parsed)) := by
  constructor
  · intro h
    by_cases ha : env.airborne <;> simp [gps_cycle, h, ha]
  · intro h
    by_cases hf : env.parsed.satellites_in_view < 4 ∧ env.airborne <;>
      simp [gps_cycle, h, hf]

/-- Witness for C6: a concrete timeout cycle from an active fix, and a
concrete successful cycle. -/
theorem C6_witness :
    ((gps_cycle cfgGps genvTimeout sdActive 3 true).sd.gps.status =
       GpsStatus.EMPTY ∧
     (gps_cycle cfgGps genvTimeout sdActive 3 true).sd.gps.satellites_in_view = 0 ∧
     (gps_cycle cfgGps genvTimeout sdActive 3 true).i = 0 ∧
     (gps_cycle cfgGps genvTimeout sdActive 3 true).led = false) ∧
    ((gps_cycle cfgGps genvSignal initSensorData 3 false).i = 4 ∧
     (gps_cycle cfgGps genvSignal initSensorData 3 false).sd.gps =
       (if genvSignal.parsed.satellites_in_view < 4 ∧ genvSignal.airborne then
         { genvSignal.parsed with speed_ms := cfgGps.cruising_speed_ms }
       else genvSignal.parsed)) := by
  exact ⟨(C6_timeout_and_update cfgGps genvTimeout sdActive 3 true).1 rfl,
         (C6_timeout_and_update cfgGps genvSignal initSensorData 3 false).2 rfl⟩

lemma legacy_baro_noToken (ext : Ext) (env : TickEnv) (dt lh : ℚ)
    (sd : SensorData) (htok : env.spi_token = false) :
    legacy_baro_update ext env dt lh sd =
      ({ sd with
         pressure_height := gatedHeight sd.pressure_height
           (ext.pressure_to_height sd.pressure sd.temperature),
         vertical_speed := smoothedVSpeed sd.vertical_speed
           (gatedHeight sd.pressure_height
             (ext.pressure_to_height sd.pressure sd.temperature))
           lh dt sd.gps.speed_ms },
       truncQ sd.temperature * 10, []) := by
  simp only [legacy_baro_update, gatedHeight, smoothedVSpeed, htok,
    Bool.false_eq_true, if_false]
  split_ifs <;> rfl

lemma legacy_baro_token (ext : Ext) (env : TickEnv) (dt lh : ℚ)
    (sd : SensorData) (htok : env.spi_token = true) :
    legacy_baro_update ext env dt lh sd =
      ({ sd with
         pressure := env.scp_pressure,
         temperature := env.scp_temperature,
         pressure_height := gatedHeight sd.pressure_height
           (ext.pressure_to_height env.scp_pressure env.scp_temperature),
         vertical_speed := smoothedVSpeed sd.vertical_speed
           (gatedHeight sd.pressure_height
             (ext.pressure_to_height env.scp_pressure env.scp_temperature))
           lh dt sd.gps.speed_ms },
       truncQ env.scp_temperature * 10, [Ev.scpRead]) := by
  simp only [legacy_baro_update, gatedHeight, smoothedVSpeed, htok, if_true]
  split_ifs <;> rfl

/-- Unfolding of a tick that takes the legacy barometric branch: the
counter is not on the 50-boundary, the hardware generation is pre-V01O and
a new sample is ready. -/
lemma sensors_tick_legacy (cfg : Config) (ext : Ext) (env : TickEnv)
    (s : TaskState) (hterm : s.terminated = false)
    (hc : ¬ next_counter cfg s % 50 = 0) (hhw : cfg.hardware_version < 3)
    (hdr : env.scp_dataready = true) :
    sensors_tick cfg ext env s =
      (let sd0 := scale_raw_sensor_data cfg (scale_z_gyro cfg)
         (read_raw_sensor_data env.adc s.sd)
       let lres := legacy_baro_update ext env
         (s.dt_since_last_height + tick_dt cfg) s.last_height sd0
       let mres := mag_update cfg env (next_counter cfg s) lres.1
       ({ s with sd := mres.1, temperature_10_local := lres.2.1,
                 last_height := lres.1.pressure_height,
                 dt_since_last_height := 0,
                 low_update_counter := next_counter cfg s },
        [Ev.adcRead, Ev.adcStart] ++ lres.2.2 ++ mres.2 ++ [Ev.ahrs])) := by
  simp only [sensors_tick, hterm, Bool.false_eq_true, if_false, hc, hdr,
    hhw, and_true, if_true, ite_true, ite_false, and_self]

lemma gateConsistent_of_fields (ext : Ext) (sd sd₂ : SensorData)
    (hp : sd₂.pressure = sd.pressure) (ht : sd₂.temperature = sd.temperature)
    (hh : sd₂.pressure_height = sd.pressure_height) :
    gateConsistent ext sd → gateConsistent ext sd₂ := by
  unfold gateConsistent
  rw [hp, ht, hh]
  exact id

/-- Every execution of the legacy barometric branch leaves the stored
height consistent with the (gated) conversion of the stored
pressure/temperature, whether or not the bus token was acquired. -/
lemma legacy_tick_gateConsistent (cfg : Config) (ext : Ext) (env : TickEnv)
    (s : TaskState) (hterm : s.terminated = false)
    (hc : ¬ next_counter cfg s % 50 = 0) (hhw : cfg.hardware_version < 3)
    (hdr : env.scp_dataready = true) :
    gateConsistent ext (sensors_tick cfg ext env s).1.sd := by
  rw [sensors_tick_legacy cfg ext env s hterm hc hhw hdr]
  by_cases htok : env.spi_token = true
  · simp only [legacy_baro_token _ _ _ _ _ htok]
    unfold gateConsistent
    simp only [mag_update_pressure, mag_update_temperature,
      mag_update_pressure_height]
    intro hg
    unfold gatedHeight
    rw [if_pos hg]
  · have htok2 : env.spi_token = false := by
      simpa using htok
    simp only [legacy_baro_noToken _ _ _ _ _ htok2]
    unfold gateConsistent
    simp only [mag_update_pressure, mag_update_temperature,
      mag_update_pressure_height, scale_raw_pressure, scale_raw_temperature,
      read_raw_pressure, read_raw_temperature]
    intro hg
    unfold gatedHeight
    rw [if_pos hg]

/-- On a legacy-generation device every tick preserves (or establishes)
the gate-consistency of the stored barometric fields: ticks that do not
run the legacy branch do not touch pressure/temperature/height, and ticks
that do run it re-establish the property. -/
lemma tick_preserves_gateConsistent (cfg : Config) (ext : Ext)
    (env : TickEnv) (s : TaskState) (hhw : cfg.hardware_version < 3)
    (h : gateConsistent ext s.sd) :
    gateConsistent ext (sensors_tick cfg ext env s).1.sd := by
  by_cases hterm : s.terminated = true
  · simpa [sensors_tick, hterm] using h
  have hterm2 : s.terminated = false := by simpa using hterm
  by_cases hc : next_counter cfg s % 50 = 0
  · have hn3 : ¬ 3 ≤ cfg.hardware_version := by omega
    by_cases hsim : env.simulation_mode = true
    · simp only [sensors_tick, hterm2, Bool.false_eq_true, if_false, hc,
        if_true, ite_true, hsim]
      exact gateConsistent_of_fields ext s.sd _
        (by simp [scale_raw_pressure, read_raw_pressure])
        (by simp [scale_raw_temperature, read_raw_temperature])
        (by simp [scale_raw_pressure_height, read_raw_pressure_height]) h
    · have hsim2 : env.simulation_mode = false := by simpa using hsim
      simp only [sensors_tick, hterm2, Bool.false_eq_true, if_false, hc,
        if_true, ite_true, hsim2, hn3, ite_false]
      exact gateConsistent_of_fields ext s.sd _
        (by simp [mag_update_pressure, scale_raw_pressure, read_raw_pressure])
        (by simp [mag_update_temperature, scale_raw_temperature,
          read_raw_temperature])
        (by simp [mag_update_pressure_height, scale_raw_pressure_height,
          read_raw_pressure_height]) h
  · by_cases hdr : env.scp_dataready = true
    · exact legacy_tick_gateConsistent cfg ext env s hterm2 hc hhw hdr
    · have hnl : ¬ (cfg.hardware_version < 3 ∧ env.scp_dataready = true) :=
        fun hcon => hdr hcon.2
      simp only [sensors_tick, hterm2, Bool.false_eq_true, if_false, hc,
        ite_false, hnl]
      exact gateConsistent_of_fields ext s.sd _
        (by simp [mag_update_pressure, scale_raw_pressure, read_raw_pressure])
        (by simp [mag_update_temperature, scale_raw_temperature,
          read_raw_temperature])
        (by simp [mag_update_pressure_height, scale_raw_pressure_height,
          read_raw_pressure_height]) h

/-- Claim C1: on a legacy-generation tick where a new barometric sample is
ready but the zero-wait bus-token acquire fails, the stored pressure,
temperature and pressure_height are unchanged. The hypothesis
`gateConsistent` states that the stored height agrees with the (gated)
conversion of the stored pressure/temperature; it is established by every
execution of the legacy branch (`legacy_tick_gateConsistent`) and
preserved by every other tick of a legacy device, so it holds at the end
of every prior tick that ever ran the branch. -/
theorem C1_contention_preserves_baro_fields (cfg : Config) (ext : Ext)
    (env : TickEnv) (s : TaskState) (hterm : s.terminated = false)
    (hhw : cfg.hardware_version < 3) (hc : ¬ next_counter cfg s % 50 = 0)
    (hdr : env.scp_dataready = true) (htok : env.spi_token = false)
    (hinv : gateConsistent ext s.sd) :
    (sensors_tick cfg ext env s).1.sd.pressure = s.sd.pressure ∧
    (sensors_tick cfg ext env s).1.sd.temperature = s.sd.temperature ∧
    (sensors_tick cfg ext env s).1.sd.pressure_height = s.sd.pressure_height := by
  rw [sensors_tick_legacy cfg ext env s hterm hc hhw hdr]
  simp only [legacy_baro_noToken _ _ _ _ _ htok]
  refine ⟨?_, ?_, ?_⟩ <;>
    simp only [mag_update_pressure, mag_update_temperature,
      mag_update_pressure_height, scale_raw_pressure, scale_raw_temperature,
      scale_raw_pressure_height, read_raw_pressure, read_raw_temperature,
      read_raw_pressure_height]
  unfold gateConsistent at hinv
  unfold gatedHeight
  split_ifs with hg
  · exact (hinv hg).symm
  · rfl

/-- Witness for C1: a contention-skipped tick from a settled legacy state
leaves pressure, temperature and height unchanged. -/
theorem C1_witness :
    (sensors_tick cfgLegacyQuad extId envScpBusy stSettled).1.sd.pressure =
      stSettled.sd.pressure ∧
    (sensors_tick cfgLegacyQuad extId envScpBusy stSettled).1.sd.temperature =
      stSettled.sd.temperature ∧
    (sensors_tick cfgLegacyQuad extId envScpBusy stSettled).1.sd.pressure_height =
      stSettled.sd.pressure_height :=
  C1_contention_preserves_baro_fields cfgLegacyQuad extId envScpBusy stSettled
    rfl (by norm_num [cfgLegacyQuad]) (by decide) rfl rfl (fun _ => rfl)

/-- Claim C10: on a contention-skipped legacy tick the branch still runs:
height is recomputed from the stale stored pressure/temperature and gated,
the vertical-speed smoothing and clamp run on it, `last_height` is set to
the resulting stored height and the Δt accumulator is reset to zero. -/
theorem C10_contention_side_effects (cfg : Config) (ext : Ext)
    (env : TickEnv) (s : TaskState) (hterm : s.terminated = false)
    (hhw : cfg.hardware_version < 3) (hc : ¬ next_counter cfg s % 50 = 0)
    (hdr : env.scp_dataready = true) (htok : env.spi_token = false) :
    (sensors_tick cfg ext env s).1.sd.pressure_height =
      gatedHeight s.sd.pressure_height
        (ext.pressure_to_height s.sd.pressure s.sd.temperature) ∧
    (sensors_tick cfg ext env s).1.sd.vertical_speed =
      smoothedVSpeed s.sd.vertical_speed
        (gatedHeight s.sd.pressure_height
          (ext.pressure_to_height s.sd.pressure s.sd.temperature))
        s.last_height (s.dt_since_last_height + tick_dt cfg)
        s.sd.gps.speed_ms ∧
    (sensors_tick cfg ext env s).1.last_height =
      (sensors_tick cfg ext env s).1.sd.pressure_height ∧
    (sensors_tick cfg ext env s).1.dt_since_last_height = 0 := by
  rw [sensors_tick_legacy cfg ext env s hterm hc hhw hdr]
  simp only [legacy_baro_noToken _ _ _ _ _ htok]
  refine ⟨?_, ?_, ?_, ?_⟩ <;>
    simp [mag_update_pressure_height, mag_update_vertical_speed,
      scale_raw_pressure, scale_raw_temperature, scale_raw_pressure_height,
      scale_raw_vertical_speed, scale_raw_gps, read_raw_pressure,
      read_raw_temperature, read_raw_pressure_height,
      read_raw_vertical_speed, read_raw_gps]

/-- Witness for C10: the contention-skipped tick from the settled state
satisfies the recompute/smooth/reset description. -/
theorem C10_witness :
    (sensors_tick cfgLegacyQuad extId envScpBusy stSettled).1.sd.pressure_height =
      gatedHeight stSettled.sd.pressure_height
        (extId.pressure_to_height stSettled.sd.pressure
          stSettled.sd.temperature) ∧
    (sensors_tick cfgLegacyQuad extId envScpBusy stSettled).1.sd.vertical_speed =
      smoothedVSpeed stSettled.sd.vertical_speed
        (gatedHeight stSettled.sd.pressure_height
          (extId.pressure_to_height stSettled.sd.pressure
            stSettled.sd.temperature))
        stSettled.last_height
        (stSettled.dt_since_last_height + tick_dt cfgLegacyQuad)
        stSettled.sd.gps.speed_ms ∧
    (sensors_tick cfgLegacyQuad extId envScpBusy stSettled).1.last_height =
      (sensors_tick cfgLegacyQuad extId envScpBusy stSettled).1.sd.pressure_height ∧
    (sensors_tick cfgLegacyQuad extId envScpBusy stSettled).1.dt_since_last_height = 0 :=
  C10_contention_side_effects cfgLegacyQuad extId envScpBusy stSettled
    rfl (by norm_num [cfgLegacyQuad]) (by decide) rfl rfl

/-- Claim C4, amended: on every successful legacy barometric update the
stored vertical speed is `0.8·v_prev + 0.2·(Δheight/Δt)` with the clamp to
0 whenever its absolute value exceeds `max(5, gps speed)` — but Δt is the
time accumulated since the last tick on which the legacy branch ran (a
tick with a fresh sample, whether or not its bus acquire succeeded), not
since the last successful update, and the accumulator is reset after every
such branch tick. -/
theorem C4_vertical_speed_update (cfg : Config) (ext : Ext) (env : TickEnv)
    (s : TaskState) (hterm : s.terminated = false)
    (hhw : cfg.hardware_version < 3) (hc : ¬ next_counter cfg s % 50 = 0)
    (hdr : env.scp_dataready = true) (htok : env.spi_token = true) :
    (sensors_tick cfg ext env s).1.sd.vertical_speed =
      smoothedVSpeed s.sd.vertical_speed
        (gatedHeight s.sd.pressure_height
          (ext.pressure_to_height env.scp_pressure env.scp_temperature))
        s.last_height (s.dt_since_last_height + tick_dt cfg)
        s.sd.gps.speed_ms ∧
    (sensors_tick cfg ext env s).1.dt_since_last_height = 0 := by
  rw [sensors_tick_legacy cfg ext env s hterm hc hhw hdr]
  simp only [legacy_baro_token _ _ _ _ _ htok]
  refine ⟨?_, ?_⟩ <;>
    simp [mag_update_vertical_speed, scale_raw_pressure,
      scale_raw_temperature, scale_raw_pressure_height,
      scale_raw_vertical_speed, scale_raw_gps, read_raw_pressure,
      read_raw_temperature, read_raw_pressure_height,
      read_raw_vertical_speed, read_raw_gps]

/-- Witness for C4 with the spec's two clamp examples: with a stored GPS
speed of 2 m/s, a raw smoothed speed of 8 is clamped to 0 and a raw
smoothed speed of 3 is stored as 3. -/
theorem C4_witness :
    (sensors_tick cfgLegacyQuad extId envV8 stSpeed2).1.sd.vertical_speed = 0 ∧
    (sensors_tick cfgLegacyQuad extId envV3 stSpeed2).1.sd.vertical_speed = 3 := by
  obtain ⟨h8, -⟩ := C4_vertical_speed_update cfgLegacyQuad extId envV8 stSpeed2
    rfl (by norm_num [cfgLegacyQuad]) (by decide) rfl rfl
  obtain ⟨h3, -⟩ := C4_vertical_speed_update cfgLegacyQuad extId envV3 stSpeed2
    rfl (by norm_num [cfgLegacyQuad]) (by decide) rfl rfl
  refine ⟨h8.trans ?_, h3.trans ?_⟩ <;>
    norm_num [smoothedVSpeed, gatedHeight, stSpeed2, extId, envV8, envV3,
      envScp100, envQuiet, tick_dt, cfgLegacyQuad, initTaskState,
      initSensorData, initGpsData]

/-- Counterexample to claim C4 as stated: in a three-tick legacy run
(successful update, contention-skipped fresh-sample tick, successful
update) the second successful update stores vertical speed 2, but the
formula of the claim — with Δt the time accumulated since the last
successful update, i.e. two quad tick periods — yields 1: the
contention-skipped tick already consumed and reset the accumulator. -/
theorem C4_counterexample :
    (c4envs 0).spi_token = true ∧ (c4envs 1).spi_token = false ∧
    (c4envs 2).spi_token = true ∧ (c4envs 0).scp_dataready = true ∧
    (c4envs 1).scp_dataready = true ∧ (c4envs 2).scp_dataready = true ∧
    (c4run 3).sd.vertical_speed = 2 ∧
    smoothedVSpeed (c4run 2).sd.vertical_speed (c4run 3).sd.pressure_height
      (c4run 1).sd.pressure_height (2 * tick_dt cfgLegacyQuad)
      (c4run 2).sd.gps.speed_ms = 1 ∧
    (2 : ℚ) ≠ 1 := by
  refine ⟨rfl, rfl, rfl, rfl, rfl, rfl, ?_, ?_, by norm_num⟩ <;>
    norm_num [c4run, runSensors, c4envs, sensors_tick, next_counter,
      tick_dt, legacy_baro_update, mag_update, read_raw_sensor_data,
      scale_raw_sensor_data, scale_z_gyro, truncQ, smoothedVSpeed,
      gatedHeight, cfgLegacyQuad, extId, envScp100, envScpBusy, envScp10004,
      envQuiet, initTaskState, initSensorData, initGpsData]

/-- Claim C5, amended: on a successful legacy update a newly computed
height is stored exactly when it lies strictly inside the open interval
(−30000, 30000); a height outside that open interval — including exactly
±30000 — is discarded and the previous stored height kept. The spec's two
examples (31000 discarded, 100 stored) hold. -/
theorem C5_height_gate (cfg : Config) (ext : Ext) (env : TickEnv)
    (s : TaskState) (hterm : s.terminated = false)
    (hhw : cfg.hardware_version < 3) (hc : ¬ next_counter cfg s % 50 = 0)
    (hdr : env.scp_dataready = true) (htok : env.spi_token = true) :
    (sensors_tick cfg ext env s).1.sd.pressure_height =
      (if -30000 < ext.pressure_to_height env.scp_pressure env.scp_temperature ∧
          ext.pressure_to_height env.scp_pressure env.scp_temperature < 30000 then
        ext.pressure_to_height env.scp_pressure env.scp_temperature
      else s.sd.pressure_height) := by
  rw [sensors_tick_legacy cfg ext env s hterm hc hhw hdr]
  simp only [legacy_baro_token _ _ _ _ _ htok]
  simp [mag_update_pressure_height, scale_raw_pressure_height,
    read_raw_pressure_height, gatedHeight]

/-- Witness for C5 with the spec's two examples: a computed height of
31000 leaves the stored height (7) unchanged, a computed height of 100 is
stored. -/
theorem C5_witness :
    (sensors_tick cfgLegacyQuad extId envH31000 stH7).1.sd.pressure_height = 7 ∧
    (sensors_tick cfgLegacyQuad extId envH100 stH7).1.sd.pressure_height = 100 := by
  have h1 := C5_height_gate cfgLegacyQuad extId envH31000 stH7
    rfl (by norm_num [cfgLegacyQuad]) (by decide) rfl rfl
  have h2 := C5_height_gate cfgLegacyQuad extId envH100 stH7
    rfl (by norm_num [cfgLegacyQuad]) (by decide) rfl rfl
  refine ⟨h1.trans ?_, h2.trans ?_⟩ <;>
    norm_num [extId, envH31000, envH100, envScp100, envQuiet, stH7,
      initTaskState, initSensorData]

/-- Counterexample to claim C5 as stated: a computed height of exactly
30000 lies inside the closed interval [−30000, 30000], so per the claim it
should be stored; the code's strict comparison discards it and the stored
height stays 7. -/
theorem C5_counterexample :
    extId.pressure_to_height envH30000.scp_pressure
      envH30000.scp_temperature = 30000 ∧
    (sensors_tick cfgLegacyQuad extId envH30000 stH7).1.sd.pressure_height = 7 ∧
    (7 : ℚ) ≠ 30000 := by
  refine ⟨rfl, ?_, by norm_num⟩
  rw [sensors_tick_legacy cfgLegacyQuad extId envH30000 stH7
    rfl (by decide) (by norm_num [cfgLegacyQuad]) rfl]
  norm_num [legacy_baro_update, mag_update_pressure_height,
    scale_raw_pressure_height, read_raw_pressure_height, scale_raw_pressure,
    read_raw_pressure, scale_raw_temperature, read_raw_temperature, truncQ,
    extId, envH30000, envScp100, envQuiet, stH7, initTaskState,
    initSensorData]

lemma legacy_baro_evs (ext : Ext) (env : TickEnv) (dt lh : ℚ)
    (sd : SensorData) :
    (legacy_baro_update ext env dt lh sd).2.2 =
      if env.spi_token then [Ev.scpRead] else [] := by
  simp only [legacy_baro_update]

lemma mag_update_evs (cfg : Config) (env : TickEnv) (c : ℕ)
    (sd : SensorData) :
    (mag_update cfg env c sd).2 =
      if cfg.mag_enabled ∧ c % 25 = 0 then [Ev.magRead] else [] := by
  unfold mag_update
  split_ifs <;> rfl

lemma bmp_low_rate_evs (ext : Ext) (env : TickEnv) (c : ℕ)
    (sd : SensorData) :
    (bmp_low_rate_update ext env c sd).2 =
      if c / 50 % 2 = 0 then [Ev.bmpTempPhase] else [Ev.bmpPressurePhase] := by
  unfold bmp_low_rate_update
  split_ifs <;> rfl

/-- Claim C2, amended: with the simulation flag set, the task self-deletes
only on a tick whose updated counter is a multiple of 50 — after that
tick's ADC read, ADC restart and scaling, which still occur, but before
the battery-voltage refresh and any barometric or magnetometer access of
the tick; on a tick whose updated counter is not a multiple of 50 no
termination happens even though the flag is set; and once terminated the
task never runs again. -/
theorem C2_sim_termination (cfg : Config) (ext : Ext) (env : TickEnv)
    (s : TaskState) (hsim : env.simulation_mode = true) :
    (s.terminated = false → next_counter cfg s % 50 = 0 →
      (sensors_tick cfg ext env s).1.terminated = true ∧
      (sensors_tick cfg ext env s).2 =
        [Ev.adcRead, Ev.adcStart, Ev.taskDelete]) ∧
    (s.terminated = false → ¬ next_counter cfg s % 50 = 0 →
      (sensors_tick cfg ext env s).1.terminated = false ∧
      Ev.taskDelete ∉ (sensors_tick cfg ext env s).2) ∧
    (s.terminated = true → sensors_tick cfg ext env s = (s, [])) := by
  refine ⟨?_, ?_, ?_⟩
  · intro hterm hc
    simp [sensors_tick, hterm, hc, hsim]
  · intro hterm hc
    constructor
    · simp only [sensors_tick, hterm, Bool.false_eq_true, if_false, hc,
        ite_false]
      split_ifs <;> rfl
    · simp only [sensors_tick, hterm, Bool.false_eq_true, if_false, hc,
        ite_false, legacy_baro_evs, mag_update_evs]
      split_ifs <;> simp
  · intro hterm
    simp [sensors_tick, hterm]

/-- Witness for C2: from a counter of 49 on the quad build, a simulation
tick reaches 50, deletes the task, and the only prior actions are the ADC
read and ADC restart. -/
theorem C2_witness :
    (sensors_tick cfgLegacyQuad extId envSim st49).1.terminated = true ∧
    (sensors_tick cfgLegacyQuad extId envSim st49).2 =
      [Ev.adcRead, Ev.adcStart, Ev.taskDelete] :=
  (C2_sim_termination cfgLegacyQuad extId envSim st49 rfl).1 rfl (by decide)

/-- Counterexample to claim C2 as stated: on a tick with the simulation
flag set whose updated counter (1) is not a multiple of 50, the task does
not terminate, and it does perform hardware accesses (the ADC read) during
that tick. -/
theorem C2_counterexample :
    envSim.simulation_mode = true ∧
    (sensors_tick cfgLegacyQuad extId envSim initTaskState).1.terminated = false ∧
    Ev.taskDelete ∉ (sensors_tick cfgLegacyQuad extId envSim initTaskState).2 ∧
    Ev.adcRead ∈ (sensors_tick cfgLegacyQuad extId envSim initTaskState).2 := by
  refine ⟨rfl, ?_, ?_, ?_⟩ <;> decide

/-- Claim C3: the write partition of the shared state — a tick of
SensorAcquisitionTask never writes the GPS subtree (so after any number of
ticks from the boot state with GpsFixTask never invoked, every GPS field
still holds its initialised value), and a cycle of GpsFixTask writes
nothing outside the GPS subtree. -/
theorem C3_write_partition :
    (∀ (cfg : Config) (ext : Ext) (env : TickEnv) (s : TaskState),
      (sensors_tick cfg ext env s).1.sd.gps = s.sd.gps) ∧
    (∀ (cfg : Config) (ext : Ext) (envs : ℕ → TickEnv) (n : ℕ),
      (runSensors cfg ext envs n initTaskState).sd.gps = initGpsData) ∧
    (∀ (cfg : Config) (env : GpsEnv) (sd : SensorData) (i0 : ℕ) (led : Bool),
      stripGps ((gps_cycle cfg env sd i0 led).sd) = stripGps sd) := by
  have htick : ∀ (cfg : Config) (ext : Ext) (env : TickEnv) (s : TaskState),
      (sensors_tick cfg ext env s).1.sd.gps = s.sd.gps := by
    intro cfg ext env s
    simp only [sensors_tick]
    split_ifs <;>
      simp [mag_update_gps, bmp_low_rate_gps, legacy_baro_gps,
        scale_raw_gps, read_raw_gps]
  refine ⟨htick, ?_, ?_⟩
  · intro cfg ext envs n
    induction n with
    | zero => rfl
    | succ n ih =>
      have : runSensors cfg ext envs (n + 1) initTaskState =
          (sensors_tick cfg ext (envs n)
            (runSensors cfg ext envs n initTaskState)).1 := rfl
      rw [this, htick, ih]
  · intro cfg env sd i0 led
    simp only [gps_cycle, stripGps]
    split_ifs <;> rfl

lemma tick_counter_term (cfg : Config) (ext : Ext) (env : TickEnv)
    (s : TaskState) (hterm : s.terminated = false)
    (hsim : env.simulation_mode = false) :
    (sensors_tick cfg ext env s).1.low_update_counter = next_counter cfg s ∧
    (sensors_tick cfg ext env s).1.terminated = false := by
  simp only [sensors_tick, hterm, hsim, Bool.false_eq_true, if_false]
  split_ifs <;> simp

lemma c8_counter (n : ℕ) :
    (c8run n).low_update_counter = n % 65001 ∧
    (c8run n).terminated = false := by
  induction n with
  | zero => exact ⟨rfl, rfl⟩
  | succ n ih =>
    have hs : c8run (n + 1) =
        (sensors_tick cfgNewQuad extId envQuiet (c8run n)).1 := rfl
    have h := tick_counter_term cfgNewQuad extId envQuiet (c8run n) ih.2 rfl
    refine ⟨?_, hs ▸ h.2⟩
    rw [hs, h.1]
    simp only [next_counter, cfgNewQuad, cfgLegacyQuad]
    rw [ih.1]
    by_cases h65 : 65000 < n % 65001 + 1 <;> simp [h65] <;> omega

lemma c8_next_counter (n : ℕ) :
    next_counter cfgNewQuad (c8run n) = (n + 1) % 65001 := by
  simp only [next_counter, cfgNewQuad, cfgLegacyQuad]
  rw [(c8_counter n).1]
  by_cases h65 : 65000 < n % 65001 + 1 <;> simp [h65] <;> omega

lemma c8_tick_evs (n : ℕ) :
    (sensors_tick cfgNewQuad extId envQuiet (c8run n)).2 =
      if (n + 1) % 65001 % 50 = 0 then
        [Ev.adcRead, Ev.adcStart, Ev.battery] ++
          (if (n + 1) % 65001 / 50 % 2 = 0 then [Ev.bmpTempPhase]
           else [Ev.bmpPressurePhase]) ++ [Ev.ahrs]
      else [Ev.adcRead, Ev.adcStart, Ev.ahrs] := by
  have ht := (c8_counter n).2
  have hc := c8_next_counter n
  simp only [sensors_tick, ht, Bool.false_eq_true, if_false, hc]
  have hsim : envQuiet.simulation_mode = false := rfl
  have hhw3 : (3 : ℕ) ≤ cfgNewQuad.hardware_version := by
    norm_num [cfgNewQuad]
  have hnl : ¬ (cfgNewQuad.hardware_version < 3 ∧ envQuiet.scp_dataready = true) := by
    norm_num [cfgNewQuad]
  have hmag : cfgNewQuad.mag_enabled = false := rfl
  simp only [hsim, Bool.false_eq_true, if_false, hnl, hhw3, if_true,
    ite_true, ite_false, bmp_low_rate_evs, mag_update_evs, hmag,
    false_and, List.append_nil]
  split_ifs <;> simp

/-- Request issued on tick `t` of the `c8run` run, in closed form: ticks
whose counter value `t % 65001` is a multiple of 50 issue a request whose
phase is the parity of `counter / 50`. -/
lemma c8req_eq (t : ℕ) (h : 1 ≤ t) :
    c8req t =
      if t % 65001 % 50 = 0 then
        (if t % 65001 / 50 % 2 = 0 then some true else some false)
      else none := by
  obtain ⟨n, rfl⟩ : ∃ n, t = n + 1 := ⟨t - 1, by omega⟩
  simp only [c8req, Nat.add_sub_cancel]
  rw [c8_tick_evs n]
  split_ifs <;> simp [baroReqOf]

/-- Counterexample to claim C8 as stated: ticks 65000 and 65001 of the
newer-hardware run are consecutive ticks and both take the every-50th-count
low-rate branch (counter 65000, then counter 0 after the reset), and both
issue a temperature request — the phases do not alternate across the
counter reset, because counter/50 is even (1300) at 65000 and even (0)
again right after the reset. -/
theorem C8_counterexample :
    c8req 65000 = some true ∧ c8req 65001 = some true := by
  rw [c8req_eq 65000 (by norm_num), c8req_eq 65001 (by norm_num)]
  norm_num

/-- Claim C8, amended: on the newer hardware generation the low-rate
barometric requests strictly alternate between the temperature and
pressure phases as long as no counter reset intervenes (each low-rate tick
is followed 50 ticks later by the opposite phase, with no request in
between); but across the counter reset the alternation breaks: the tick
with counter 65000 issues a temperature request and the very next tick,
whose counter has been reset to 0, issues another temperature request. -/
theorem C8_phase_alternation (t : ℕ) (h1 : 1 ≤ t)
    (h50 : t % 65001 % 50 = 0) :
    (t % 65001 + 50 ≤ 65000 →
      c8req t ≠ none ∧ c8req (t + 50) ≠ none ∧ c8req (t + 50) ≠ c8req t ∧
      (∀ k, 0 < k → k < 50 → c8req (t + k) = none)) ∧
    (t % 65001 = 65000 →
      c8req t = some true ∧ c8req (t + 1) = some true) := by
  constructor
  · intro hle
    have e1 : c8req t =
        (if t % 65001 / 50 % 2 = 0 then some true else some false) := by
      rw [c8req_eq t h1, if_pos h50]
    have hm : (t + 50) % 65001 = t % 65001 + 50 := by omega
    have hm50 : (t + 50) % 65001 % 50 = 0 := by omega
    have hdiv : (t % 65001 + 50) / 50 = t % 65001 / 50 + 1 :=
      Nat.add_div_right _ (by norm_num)
    have e2 : c8req (t + 50) =
        (if (t % 65001 / 50 + 1) % 2 = 0 then some true else some false) := by
      rw [c8req_eq (t + 50) (by omega), if_pos hm50, hm, hdiv]
    refine ⟨?_, ?_, ?_, ?_⟩
    · rw [e1]; split_ifs <;> simp
    · rw [e2]; split_ifs <;> simp
    · rw [e1, e2]
      rcases Nat.even_or_odd (t % 65001 / 50) with he | ho
      · have he2 := Nat.even_iff.mp he
        rw [if_pos he2, if_neg (by omega : ¬ (t % 65001 / 50 + 1) % 2 = 0)]
        simp
      · have ho2 := Nat.odd_iff.mp ho
        rw [if_neg (by omega : ¬ t % 65001 / 50 % 2 = 0),
          if_pos (by omega : (t % 65001 / 50 + 1) % 2 = 0)]
        simp
    · intro k hk0 hk50
      have hmk : (t + k) % 65001 = t % 65001 + k := by omega
      rw [c8req_eq (t + k) (by omega), hmk, if_neg (by omega)]
  · intro h65
    have e1 : c8req t = some true := by
      rw [c8req_eq t h1, h65]
      norm_num
    have hm1 : (t + 1) % 65001 = 0 := by omega
    have e2 : c8req (t + 1) = some true := by
      rw [c8req_eq (t + 1) (by omega), hm1]
      norm_num
    exact ⟨e1, e2⟩

/-- Witness for C8 at tick 50: the first low-rate tick issues a request,
tick 100 issues the opposite one, and no request is issued in between. -/
theorem C8_witness :
    c8req 50 ≠ none ∧ c8req 100 ≠ c8req 50 ∧ c8req 57 = none := by
  have h := (C8_phase_alternation 50 (by norm_num) (by norm_num)).1
    (by norm_num)
  exact ⟨h.1, h.2.2.1, h.2.2.2 7 (by norm_num) (by norm_num)⟩

end Sensors
